import Mathlib

/-!
Shallow embedding of the MILK loyalty backend (`server.js`).

The server keeps its whole state in one in-memory object `db` with five
collections (`users`, `rewards`, `orders`, `prepaid`, `pointsOps`) and every
endpoint handler is a pure read/modify/write on that object followed by a
whole-file save.  We model the state as the structure `DB` and each mutating
handler as a function `DB → request → DB × Except String response`: the first
component is the state after the handler ran, the second the JSON response
(`Except.error` for the 4xx validation / not-found responses, carrying the
handler's message string).  The `genId()` value and the `new Date()`
timestamp are nondeterministic inputs of the server, so the handlers take
them as explicit arguments.

JavaScript numbers are modelled as `Rat` where the code does arithmetic on
currency amounts and card balances, and as `Int` for point counts (the code
produces them with `parseInt` / `Math.floor`, so they are integers).
Request-body fields are modelled as `Option`s: `none` is an absent field
(or a `NaN` result of `parseInt`), and the JS defaultings `x || 0`,
`x || ""`, `x || null` become `Option.getD` / the helper `strOr` below.
-/

/-- Models the JS string defaulting `s || d`: an absent field or the empty
string (both falsy) yield the default. -/
def strOr (s : Option String) (d : String) : String :=
  match s with
  | none => d
  | some "" => d
  | some t => t

/-- Models the JS `s || null` on an optional string field. -/
def strOrNull (s : Option String) : Option String :=
  match s with
  | some "" => none
  | x => x

/-- Applies `f` to the first element satisfying `p`, leaving the rest alone.
This is how the in-place mutation of the object returned by
`Array.prototype.find` acts on the containing array. -/
def updateFirst (p : α → Bool) (f : α → α) : List α → List α
  | [] => []
  | x :: xs => if p x then f x :: xs else x :: updateFirst p f xs

/-- A user record: `{ id, name, email, phone, points }`. -/
structure User where
  id : String
  name : Option String
  email : Option String
  phone : Option String
  points : Int
deriving Repr, DecidableEq

/-- A points-ledger entry: `{ id, userId, amount, points, op, note, createdAt }`. -/
structure PointsOp where
  id : String
  userId : String
  amount : Rat
  points : Int
  op : String
  note : String
  createdAt : String
deriving Repr, DecidableEq

/-- A reward: `{ id, title, cost, desc, icon, createdAt }`. -/
structure Reward where
  id : String
  title : String
  cost : Int
  desc : String
  icon : String
  createdAt : String
deriving Repr, DecidableEq

/-- One `items` entry of an order: `{ title, qty, price }`. -/
structure OrderItem where
  title : String
  qty : Rat
  price : Rat
deriving Repr, DecidableEq

/-- An order: `{ id, items, total, pickupTime, pickupLocation, notes, status,
userId, createdAt, updatedAt }`. -/
structure Order where
  id : String
  items : List OrderItem
  total : Rat
  pickupTime : Option String
  pickupLocation : Option String
  notes : String
  status : String
  userId : Option String
  createdAt : String
  updatedAt : Option String
deriving Repr, DecidableEq

/-- A prepaid-card history entry: `{ delta, note, date }`. -/
structure HistEntry where
  delta : Rat
  note : String
  date : String
deriving Repr, DecidableEq

/-- A prepaid card: `{ id, code, title, value, bonus, total, balance, userId,
createdAt, history }`. -/
structure Card where
  id : String
  code : String
  title : String
  value : Rat
  bonus : Rat
  total : Rat
  balance : Rat
  userId : Option String
  createdAt : String
  history : List HistEntry
deriving Repr, DecidableEq

/-- The whole server state `db`. -/
structure DB where
  users : List User
  rewards : List Reward
  orders : List Order
  prepaid : List Card
  pointsOps : List PointsOp
deriving Repr, DecidableEq

/-- The initial empty database. -/
def emptyDB : DB :=
  { users := [], rewards := [], orders := [], prepaid := [], pointsOps := [] }

/-- Request body of `POST /api/milk/points/add`.  `userId = ""` models a
missing or empty (falsy) identifier; `points` is the result of
`parseInt(points, 10)` (`none` for an absent field or `NaN`); `amount` is the
numeric value of the `amount` field if present. -/
structure PointsAddReq where
  userId : String
  amount : Option Rat
  points : Option Int
  op : Option String
  note : Option String
deriving Repr, DecidableEq

/-- The point count the handler settles on (lines `let pts = parseInt(...)`
through the `pts = Math.floor(amt / 10)` fallback): an explicit positive
`points` wins, otherwise `Math.floor(amt / 10)` with the 10-currency-per-point
rate. -/
def derivedPts (r : PointsAddReq) : Int :=
  let amt : Rat := r.amount.getD 0
  match r.points with
  | some p => if p ≤ 0 then ⌊amt / 10⌋ else p
  | none => ⌊amt / 10⌋

/-- The points of the first user whose `id` matches, `0` when there is none
(this is the balance the handler starts from, counting the implicit
creation). -/
def prevPoints (db : DB) (uid : String) : Int :=
  match db.users.find? (fun u => u.id == uid) with
  | some u => u.points
  | none => 0

/-- Handler for `POST /api/milk/points/add`. -/
def pointsAdd (db : DB) (r : PointsAddReq) (newId now : String) :
    DB × Except String (User × PointsOp) :=
  if r.userId = "" then (db, Except.error "Brak userId")
  else
    let amt : Rat := r.amount.getD 0
    let pts : Int := derivedPts r
    if pts ≤ 0 then (db, Except.error "Liczba punktów musi być większa niż 0")
    else
      let operation : String := if r.op = some "sub" then "sub" else "add"
      let delta : Int := if operation = "sub" then -pts else pts
      let opObj : PointsOp :=
        { id := newId, userId := r.userId, amount := amt, points := pts,
          op := operation, note := r.note.getD "", createdAt := now }
      match db.users.find? (fun u => u.id == r.userId) with
      | some u =>
          ({ db with
              users := updateFirst (fun x => x.id == r.userId)
                (fun x => { x with points := max 0 (x.points + delta) }) db.users,
              pointsOps := opObj :: db.pointsOps },
           Except.ok ({ u with points := max 0 (u.points + delta) }, opObj))
      | none =>
          let u : User :=
            { id := r.userId, name := none, email := none, phone := none,
              points := max 0 (0 + delta) }
          ({ db with users := db.users ++ [u], pointsOps := opObj :: db.pointsOps },
           Except.ok (u, opObj))

/-- Handler for `GET /api/milk/points/ops`: the full ledger as stored. -/
def pointsOpsGet (db : DB) : List PointsOp := db.pointsOps

/-- Request body of `POST /api/milk/rewards`.  `title = ""` models a missing
or empty (falsy) title and `cost = 0` a falsy numeric cost, mirroring the
`if (!title || !cost)` guard on numeric input. -/
structure RewardsPostReq where
  title : String
  cost : Int
  desc : Option String
  icon : Option String
deriving Repr, DecidableEq

/-- Handler for `POST /api/milk/rewards`. -/
def rewardsPost (db : DB) (r : RewardsPostReq) (newId now : String) :
    DB × Except String Reward :=
  if r.title = "" ∨ r.cost = 0 then
    (db, Except.error "Wymagane jest \x27title\x27 i \x27cost\x27")
  else
    let reward : Reward :=
      { id := newId, title := r.title, cost := r.cost,
        desc := r.desc.getD "", icon := r.icon.getD "", createdAt := now }
    ({ db with rewards := db.rewards ++ [reward] }, Except.ok reward)

/-- Request body of `PUT /api/milk/rewards/:id`.  The outer `Option` is field
presence (`undefined` check); for `cost` the inner `Option Int` is the
`parseInt(cost, 10)` result, `none` meaning `NaN`. -/
structure RewardPutReq where
  title : Option String
  cost : Option (Option Int)
  desc : Option String
  icon : Option String
deriving Repr, DecidableEq

/-- The `reward.cost = parseInt(cost, 10) || reward.cost` update: a `NaN` or
`0` parse result (both falsy) keeps the previous cost. -/
def putCost (old : Int) (c : Option Int) : Int :=
  match c with
  | none => old
  | some v => if v = 0 then old else v

/-- The field-by-field update a `PUT /api/milk/rewards/:id` body performs on
a reward record. -/
def applyRewardPut (r : RewardPutReq) (rw : Reward) : Reward :=
  let rw := match r.title with | none => rw | some t => { rw with title := t }
  let rw := match r.cost with | none => rw | some c => { rw with cost := putCost rw.cost c }
  let rw := match r.desc with | none => rw | some d => { rw with desc := d }
  let rw := match r.icon with | none => rw | some i => { rw with icon := i }
  rw

/-- Handler for `PUT /api/milk/rewards/:id`. -/
def rewardsPut (db : DB) (id : String) (r : RewardPutReq) :
    DB × Except String Reward :=
  match db.rewards.find? (fun x => x.id == id) with
  | none => (db, Except.error "Nagroda nie istnieje")
  | some rw =>
      ({ db with rewards := updateFirst (fun x => x.id == id) (applyRewardPut r) db.rewards },
       Except.ok (applyRewardPut r rw))

/-- Handler for `DELETE /api/milk/rewards/:id`. -/
def rewardsDelete (db : DB) (id : String) : DB × Except String Bool :=
  match db.rewards.findIdx? (fun x => x.id == id) with
  | none => (db, Except.error "Nagroda nie istnieje")
  | some i => ({ db with rewards := db.rewards.eraseIdx i }, Except.ok true)

/-- Request body of `POST /api/milk/orders`. -/
structure OrdersPostReq where
  items : List OrderItem
  total : Option Rat
  pickupTime : Option String
  pickupLocation : Option String
  notes : Option String
  userId : Option String
deriving Repr, DecidableEq

/-- Handler for `POST /api/milk/orders`. -/
def ordersPost (db : DB) (r : OrdersPostReq) (newId now : String) :
    DB × Except String Order :=
  if r.items.isEmpty then (db, Except.error "Brak pozycji w zamówieniu")
  else
    let order : Order :=
      { id := newId, items := r.items, total := r.total.getD 0,
        pickupTime := strOrNull r.pickupTime,
        pickupLocation := strOrNull r.pickupLocation,
        notes := strOr r.notes "", status := "Przyjęte",
        userId := strOrNull r.userId, createdAt := now, updatedAt := none }
    ({ db with orders := order :: db.orders }, Except.ok order)

/-- The status replacement of `PUT /api/milk/orders/:id`: a falsy (absent or
empty) status leaves the old one, and `updatedAt` is always refreshed. -/
def applyOrderPut (status : Option String) (now : String) (o : Order) : Order :=
  let o := match status with
    | none => o
    | some s => if s != "" then { o with status := s } else o
  { o with updatedAt := some now }

/-- Handler for `PUT /api/milk/orders/:id`. -/
def ordersPut (db : DB) (id : String) (status : Option String) (now : String) :
    DB × Except String Order :=
  match db.orders.find? (fun o => o.id == id) with
  | none => (db, Except.error "Zamówienie nie istnieje")
  | some o =>
      ({ db with orders := updateFirst (fun x => x.id == id) (applyOrderPut status now) db.orders },
       Except.ok (applyOrderPut status now o))

/-- Request body of `POST /api/milk/prepaid/purchase`.  `value` and `bonus`
are the numeric field values when present; `Number(x || 0)` becomes
`Option.getD 0`. -/
structure PurchaseReq where
  title : Option String
  value : Option Rat
  bonus : Option Rat
  userId : Option String
deriving Repr, DecidableEq

/-- Handler for `POST /api/milk/prepaid/purchase`.  The generated 6-digit
`code` is a nondeterministic input, passed as an argument.  Note the guard is
`if (!val)`: it rejects only a zero value, not a negative one. -/
def prepaidPurchase (db : DB) (r : PurchaseReq) (newId code now : String) :
    DB × Except String Card :=
  let val : Rat := r.value.getD 0
  let bon : Rat := r.bonus.getD 0
  if val = 0 then (db, Except.error "Wartość karty musi być > 0")
  else
    let card : Card :=
      { id := newId, code := code,
        title := strOr r.title ("Karta " ++ toString val ++ " zł"),
        value := val, bonus := bon, total := val + bon, balance := val + bon,
        userId := strOrNull r.userId, createdAt := now,
        history := [{ delta := val + bon, note := "Zakup karty", date := now }] }
    ({ db with prepaid := card :: db.prepaid }, Except.ok card)

/-- The balance-and-history mutation of a granted `adjust` call. -/
def applyAdjust (d : Rat) (note : Option String) (now : String) (c : Card) : Card :=
  { c with balance := c.balance + d,
           history := { delta := d,
                        note := strOr note
                          (if d > 0 then "Doładowanie (admin)" else "Korekta / odjęcie (admin)"),
                        date := now } :: c.history }

/-- Handler for `POST /api/milk/prepaid/:code/adjust`.  Cards in the model
always carry a `balance`, so the `card.balance ?? card.total ?? card.value
?? 0` fallback chain collapses to `card.balance`. -/
def prepaidAdjust (db : DB) (code : String) (delta : Option Rat)
    (note : Option String) (now : String) : DB × Except String Card :=
  let d : Rat := delta.getD 0
  if d = 0 then (db, Except.error "delta musi być różne od 0")
  else
    match db.prepaid.find? (fun p => p.code == code) with
    | none => (db, Except.error "Karta nie istnieje")
    | some card =>
        if card.balance + d < 0 then
          (db, Except.error "Saldo nie może być ujemne")
        else
          ({ db with prepaid := updateFirst (fun p => p.code == code) (applyAdjust d note now) db.prepaid },
           Except.ok (applyAdjust d note now card))

/-- Models `String.prototype.toLowerCase()` as a per-character lowering
(`Char.toLower` maps the basic latin letters; on the ASCII status strings the
handlers compare, this agrees with JS). -/
def jsToLower (s : String) : String := String.mk (s.data.map Char.toLower)

/-- The response of `GET /api/milk/stats`. -/
structure Stats where
  users : Nat
  pointsTotal : Int
  redeems : Nat
  ordersActive : Nat
  prepaid : Nat
deriving Repr, DecidableEq

/-- Handler for `GET /api/milk/stats`. -/
def statsOf (db : DB) : Stats :=
  { users := db.users.length,
    pointsTotal := db.users.foldl (fun s u => s + u.points) 0,
    redeems := (db.pointsOps.filter (fun o => o.op == "sub")).length,
    ordersActive := (db.orders.filter (fun o => jsToLower o.status != "wydane")).length,
    prepaid := db.prepaid.length }

/-- One mutating API request, covering every handler that writes to `db`. -/
inductive ApiAction where
  | pointsAdd (r : PointsAddReq) (newId now : String)
  | rewardsPost (r : RewardsPostReq) (newId now : String)
  | rewardsPut (id : String) (r : RewardPutReq)
  | rewardsDelete (id : String)
  | ordersPost (r : OrdersPostReq) (newId now : String)
  | ordersPut (id : String) (status : Option String) (now : String)
  | prepaidPurchase (r : PurchaseReq) (newId code now : String)
  | prepaidAdjust (code : String) (delta : Option Rat) (note : Option String) (now : String)

/-- The state after one mutating request is handled. -/
def applyAction (db : DB) : ApiAction → DB
  | .pointsAdd r i n => (pointsAdd db r i n).1
  | .rewardsPost r i n => (rewardsPost db r i n).1
  | .rewardsPut id r => (rewardsPut db id r).1
  | .rewardsDelete id => (rewardsDelete db id).1
  | .ordersPost r i n => (ordersPost db r i n).1
  | .ordersPut id s n => (ordersPut db id s n).1
  | .prepaidPurchase r i c n => (prepaidPurchase db r i c n).1
  | .prepaidAdjust c d no n => (prepaidAdjust db c d no n).1

/-! Helper lemmas about `updateFirst`. -/

theorem updateFirst_find? {p : α → Bool} {f : α → α} {l : List α} {u : α}
    (h : l.find? p = some u) (hf : p (f u) = true) :
    (updateFirst p f l).find? p = some (f u) := by
  induction l with
  | nil => simp at h
  | cons x xs ih =>
    by_cases hx : p x
    · rw [List.find?_cons_of_pos _ hx] at h
      injection h with h
      subst h
      simp [updateFirst, hx, List.find?_cons_of_pos _ hf]
    · rw [List.find?_cons_of_neg _ hx] at h
      simp only [updateFirst, if_neg hx]
      rw [List.find?_cons_of_neg _ hx]
      exact ih h

/-- Claim C1: a points operation with an explicit positive point count `p`
succeeds and leaves the user's stored balance at
`max 0 (previous + signed p)`, never negative; a `sub` larger than the
balance clamps to zero instead of failing. -/
theorem points_add_balance (db : DB) (r : PointsAddReq) (newId now : String) (p : Int)
    (hu : r.userId ≠ "") (hp : r.points = some p) (hpos : 0 < p) :
    ∃ u op, (pointsAdd db r newId now).2 = Except.ok (u, op) ∧
      u.points = max 0 (prevPoints db r.userId + (if r.op = some "sub" then -p else p)) ∧
      0 ≤ u.points ∧
      (pointsAdd db r newId now).1.users.find? (fun x => x.id == r.userId) = some u := by
  have hd : derivedPts r = p := by
    simp [derivedPts, hp, Int.not_le.mpr hpos]
  have hdelta :
      (if (if r.op = some "sub" then "sub" else "add") = "sub" then -p else p) =
        (if r.op = some "sub" then -p else p) := by
    by_cases hop : r.op = some "sub" <;> simp [hop]
  simp only [pointsAdd, if_neg hu, hd, if_neg (by omega : ¬ p ≤ 0)]
  rcases hfind : db.users.find? (fun u => u.id == r.userId) with _ | u
  · simp only [hfind]
    refine ⟨_, _, rfl, ?_, ?_, ?_⟩
    · simp [prevPoints, hfind, hdelta]
    · exact le_max_left _ _
    · rw [List.find?_append, hfind]
      simp
  · have hid : (u.id == r.userId) = true := by
      have := List.find?_some hfind
      simpa using this
    simp only [hfind]
    refine ⟨_, _, rfl, ?_, ?_, ?_⟩
    · simp [prevPoints, hfind, hdelta]
    · exact le_max_left _ _
    · exact updateFirst_find? hfind (by simpa using hid)

/-- Concrete state for exercising the points handler: one user `u1` holding
2 points. -/
def dbC1 : DB := { emptyDB with users :=
  [{ id := "u1", name := none, email := none, phone := none, points := 2 }] }

/-- Concrete request: subtract 5 points from `u1`. -/
def rC1 : PointsAddReq :=
  { userId := "u1", amount := none, points := some 5, op := some "sub", note := none }

/-- Witness for C1 at a concrete oversubtraction: balance clamps to zero. -/
theorem points_add_balance_witness :
    ∃ u op, (pointsAdd dbC1 rC1 "i" "t").2 = Except.ok (u, op) ∧
      u.points = max 0 (prevPoints dbC1 rC1.userId + (if rC1.op = some "sub" then -(5:Int) else 5)) ∧
      0 ≤ u.points ∧
      (pointsAdd dbC1 rC1 "i" "t").1.users.find? (fun x => x.id == rC1.userId) = some u :=
  points_add_balance dbC1 rC1 "i" "t" 5 (by decide) rfl (by decide)

/-- Claim C2: with no positive explicit point count, the handler derives the
count as `⌊amount / 10⌋`; a non-positive derived count is rejected with the
validation error and the state is unchanged, a positive one is recorded. -/
theorem points_add_derive (db : DB) (r : PointsAddReq) (newId now : String)
    (hu : r.userId ≠ "")
    (hp : r.points = none ∨ ∃ p, r.points = some p ∧ p ≤ 0) :
    derivedPts r = ⌊(r.amount.getD 0 : Rat) / 10⌋ ∧
    (⌊(r.amount.getD 0 : Rat) / 10⌋ ≤ 0 →
      pointsAdd db r newId now =
        (db, Except.error "Liczba punktów musi być większa niż 0")) ∧
    (0 < ⌊(r.amount.getD 0 : Rat) / 10⌋ →
      ∃ u op, (pointsAdd db r newId now).2 = Except.ok (u, op) ∧
        op.points = ⌊(r.amount.getD 0 : Rat) / 10⌋) := by
  have hd : derivedPts r = ⌊(r.amount.getD 0 : Rat) / 10⌋ := by
    rcases hp with h | ⟨p, hp, hle⟩
    · simp [derivedPts, h]
    · simp [derivedPts, hp, hle]
  refine ⟨hd, ?_, ?_⟩
  · intro hle
    simp [pointsAdd, hu, hd, hle]
  · intro hpos
    simp only [pointsAdd, if_neg hu, hd, if_neg (by omega : ¬ ⌊(r.amount.getD 0 : Rat) / 10⌋ ≤ 0)]
    rcases hfind : db.users.find? (fun u => u.id == r.userId) with _ | u <;>
      simp only [hfind] <;> exact ⟨_, _, rfl, rfl⟩

/-- Witness for C2: amount 9 is rejected with no state change, amount 95
derives 9 points. -/
theorem points_add_derive_witness :
    (pointsAdd emptyDB
        { userId := "u1", amount := some 9, points := none, op := none, note := none }
        "i" "t" =
      (emptyDB, Except.error "Liczba punktów musi być większa niż 0")) ∧
    (∃ u op, (pointsAdd emptyDB
        { userId := "u1", amount := some 95, points := none, op := none, note := none }
        "i" "t").2 = Except.ok (u, op) ∧ op.points = 9) := by
  constructor
  · exact (points_add_derive emptyDB
      { userId := "u1", amount := some 9, points := none, op := none, note := none }
      "i" "t" (by decide) (Or.inl rfl)).2.1 (by norm_num)
  · obtain ⟨u, op, hok, hpts⟩ :=
      (points_add_derive emptyDB
        { userId := "u1", amount := some 95, points := none, op := none, note := none }
        "i" "t" (by decide) (Or.inl rfl)).2.2 (by norm_num)
    exact ⟨u, op, hok, by rw [hpts]; norm_num⟩

/-- Claim C3: a points operation on an unknown `userId` creates a fresh user
with null profile fields, appends it to the user list, and applies the signed
delta to its zero balance, so the response user holds `max 0 delta` points. -/
theorem points_add_creates_user (db : DB) (r : PointsAddReq) (newId now : String)
    (hu : r.userId ≠ "")
    (hfind : db.users.find? (fun u => u.id == r.userId) = none)
    (hpts : 0 < derivedPts r) :
    ∃ u op, (pointsAdd db r newId now).2 = Except.ok (u, op) ∧
      u.id = r.userId ∧ u.name = none ∧ u.email = none ∧ u.phone = none ∧
      u.points = max 0 (if r.op = some "sub" then -(derivedPts r) else derivedPts r) ∧
      (pointsAdd db r newId now).1.users = db.users ++ [u] := by
  have hdelta :
      (if (if r.op = some "sub" then "sub" else "add") = "sub"
        then -(derivedPts r) else derivedPts r) =
      (if r.op = some "sub" then -(derivedPts r) else derivedPts r) := by
    by_cases hop : r.op = some "sub" <;> simp [hop]
  simp only [pointsAdd, if_neg hu, if_neg (by omega : ¬ derivedPts r ≤ 0), hfind]
  exact ⟨_, _, rfl, rfl, rfl, rfl, rfl, by simp [hdelta], rfl⟩

/-- Witness for C3: first operation on unknown user `u2` is a `sub` of 5 and
yields a fresh user with zero points. -/
theorem points_add_creates_user_witness :
    ∃ u op, (pointsAdd emptyDB
        { userId := "u2", amount := none, points := some 5, op := some "sub", note := none }
        "i" "t").2 = Except.ok (u, op) ∧
      u.id = "u2" ∧ u.name = none ∧ u.email = none ∧ u.phone = none ∧
      u.points = max 0 (if (some "sub" : Option String) = some "sub" then -(5:Int) else 5) ∧
      (pointsAdd emptyDB
        { userId := "u2", amount := none, points := some 5, op := some "sub", note := none }
        "i" "t").1.users = emptyDB.users ++ [u] :=
  points_add_creates_user emptyDB _ "i" "t" (by decide) rfl (by decide)

/-- No mutating handler ever edits or removes a ledger entry: the old
`pointsOps` list survives as a suffix of the new one. -/
theorem pointsOps_suffix_of_action (db : DB) (a : ApiAction) :
    db.pointsOps.IsSuffix (applyAction db a).pointsOps := by
  cases a <;>
    simp only [applyAction, pointsAdd, rewardsPost, rewardsPut, rewardsDelete,
      ordersPost, ordersPut, prepaidPurchase, prepaidAdjust] <;>
    (repeat' split) <;>
    first
      | exact List.suffix_refl _
      | exact List.suffix_cons _ _

/-- A successful points operation prepends exactly its response ledger entry. -/
theorem pointsAdd_ok_pointsOps (db : DB) (r : PointsAddReq) (i n : String)
    (u : User) (op : PointsOp) (h : (pointsAdd db r i n).2 = Except.ok (u, op)) :
    (pointsAdd db r i n).1.pointsOps = op :: db.pointsOps := by
  by_cases hu : r.userId = ""
  · simp [pointsAdd, hu] at h
  by_cases hpts : derivedPts r ≤ 0
  · simp [pointsAdd, hu, hpts] at h
  rcases hfind : db.users.find? (fun u => u.id == r.userId) with _ | u'
  all_goals
    simp only [pointsAdd, if_neg hu, if_neg hpts, hfind] at h ⊢
    simp only [Except.ok.injEq, Prod.mk.injEq] at h
    obtain ⟨-, hop⟩ := h
    simp [← hop]

/-- Claim C4: the points ledger is append-only and newest-first.  No mutating
request edits or removes an existing entry (the old ledger is a suffix of the
new); a successful points operation prepends exactly one entry; after
operations A then B, `GET /api/milk/points/ops` returns B before A. -/
theorem pointsOps_append_only :
    (∀ (db : DB) (a : ApiAction), db.pointsOps.IsSuffix (applyAction db a).pointsOps) ∧
    (∀ (db : DB) (r : PointsAddReq) (i n : String) (u : User) (op : PointsOp),
      (pointsAdd db r i n).2 = Except.ok (u, op) →
      pointsOpsGet (pointsAdd db r i n).1 = op :: pointsOpsGet db) ∧
    (∀ (db : DB) (rA : PointsAddReq) (iA nA : String) (uA : User) (opA : PointsOp)
        (rB : PointsAddReq) (iB nB : String) (uB : User) (opB : PointsOp),
      (pointsAdd db rA iA nA).2 = Except.ok (uA, opA) →
      (pointsAdd (pointsAdd db rA iA nA).1 rB iB nB).2 = Except.ok (uB, opB) →
      pointsOpsGet (pointsAdd (pointsAdd db rA iA nA).1 rB iB nB).1 =
        opB :: opA :: pointsOpsGet db) := by
  refine ⟨pointsOps_suffix_of_action, ?_, ?_⟩
  · intro db r i n u op h
    exact pointsAdd_ok_pointsOps db r i n u op h
  · intro db rA iA nA uA opA rB iB nB uB opB hA hB
    have h1 := pointsAdd_ok_pointsOps db rA iA nA uA opA hA
    have h2 := pointsAdd_ok_pointsOps (pointsAdd db rA iA nA).1 rB iB nB uB opB hB
    simp only [pointsOpsGet] at *
    rw [h2, h1]

/-- Concrete request for the C4 witness. -/
def rC4 : PointsAddReq :=
  { userId := "u1", amount := none, points := some 5, op := none, note := none }

/-- The ledger entry the C4 witness request produces. -/
def opC4 : PointsOp :=
  { id := "i1", userId := "u1", amount := 0, points := 5, op := "add",
    note := "", createdAt := "t1" }

/-- The user record the C4 witness request produces. -/
def uC4 : User :=
  { id := "u1", name := none, email := none, phone := none, points := 5 }

/-- Witness for C4: one successful operation on the empty state prepends
exactly its entry to the (empty) ledger. -/
theorem pointsOps_append_only_witness :
    pointsOpsGet (pointsAdd emptyDB rC4 "i1" "t1").1 = opC4 :: pointsOpsGet emptyDB :=
  pointsOps_append_only.2.1 emptyDB rC4 "i1" "t1" uC4 opC4 rfl

/-- Claim C10: a `sub` operation whose point count exceeds the user's balance
still records the full requested count in the ledger entry at the head of
`pointsOps`, so the recorded points exceed the true decrease of the balance
(the balance only drops to zero). -/
theorem sub_records_full_points (db : DB) (r : PointsAddReq) (i n : String)
    (p : Int) (u : User)
    (hu : r.userId ≠ "") (hp : r.points = some p) (hpos : 0 < p)
    (hop : r.op = some "sub")
    (hfind : db.users.find? (fun x => x.id == r.userId) = some u)
    (hlt : u.points < p) :
    ∃ u' op, (pointsAdd db r i n).2 = Except.ok (u', op) ∧
      (pointsAdd db r i n).1.pointsOps.head? = some op ∧
      op.points = p ∧ u'.points = 0 ∧ u.points - u'.points < op.points := by
  have hd : derivedPts r = p := by simp [derivedPts, hp, Int.not_le.mpr hpos]
  simp only [pointsAdd, if_neg hu, hd, if_neg (by omega : ¬ p ≤ 0), hop, hfind]
  simp only [reduceIte]
  refine ⟨_, _, rfl, rfl, rfl, ?_, ?_⟩ <;> simp <;> omega

/-- Concrete state for the C10 witness: user `u3` holds 3 points. -/
def dbC10 : DB := { emptyDB with users :=
  [{ id := "u3", name := none, email := none, phone := none, points := 3 }] }

/-- Concrete request for the C10 witness: subtract 5 points from `u3`. -/
def rC10 : PointsAddReq :=
  { userId := "u3", amount := none, points := some 5, op := some "sub", note := none }

/-- Witness for C10: subtracting 5 from a 3-point balance records 5 in the
ledger while the balance only falls by 3. -/
theorem sub_records_full_points_witness :
    ∃ u' op, (pointsAdd dbC10 rC10 "i" "t").2 = Except.ok (u', op) ∧
      (pointsAdd dbC10 rC10 "i" "t").1.pointsOps.head? = some op ∧
      op.points = 5 ∧ u'.points = 0 ∧
      (3:Int) - u'.points < op.points :=
  sub_records_full_points dbC10 rC10 "i" "t" 5
    { id := "u3", name := none, email := none, phone := none, points := 3 }
    (by decide) rfl (by decide) rfl rfl (by decide)

/-- Claim C5, evaluated at its failing input: the purchase guard `if (!val)`
only rejects a zero value, so purchasing a card with value −50 succeeds and
puts a card with negative balance into the prepaid collection, violating the
claimed `balance ≥ 0` invariant (and the handler's own error message, which
demands a value > 0). -/
theorem prepaid_purchase_negative_balance :
    ∃ card, (prepaidPurchase emptyDB
        { title := none, value := some (-50), bonus := none, userId := none }
        "c1" "123456" "t").2 = Except.ok card ∧
      card.balance = -50 ∧ card.balance < 0 ∧
      (prepaidPurchase emptyDB
        { title := none, value := some (-50), bonus := none, userId := none }
        "c1" "123456" "t").1.prepaid = [card] := by
  refine ⟨_, rfl, by norm_num, by norm_num, rfl⟩

/-- Claim C6: purchasing a card with a positive value initializes
`balance = total = value + bonus` (bonus defaulting to zero when absent) and
a one-entry history whose delta is that same sum. -/
theorem prepaid_purchase_init (db : DB) (r : PurchaseReq) (i c n : String) (v : Rat)
    (hv : r.value = some v) (hpos : 0 < v) :
    ∃ card, (prepaidPurchase db r i c n).2 = Except.ok card ∧
      card.balance = v + r.bonus.getD 0 ∧
      card.total = v + r.bonus.getD 0 ∧
      card.balance = card.total ∧
      card.history = [{ delta := v + r.bonus.getD 0, note := "Zakup karty", date := n }] ∧
      (r.bonus = none → card.balance = v) := by
  have hval : r.value.getD 0 = v := by simp [hv]
  simp only [prepaidPurchase, hval, if_neg (ne_of_gt hpos)]
  refine ⟨_, rfl, rfl, rfl, rfl, rfl, ?_⟩
  intro hb
  simp [hb]

/-- Concrete request for the C6 witness: value 100, bonus 10. -/
def rC6 : PurchaseReq :=
  { title := none, value := some 100, bonus := some 10, userId := none }

/-- Witness for C6: the purchased card starts with balance = total = 110 and
one history entry of delta 110. -/
theorem prepaid_purchase_init_witness :
    ∃ card, (prepaidPurchase emptyDB rC6 "i" "123456" "t").2 = Except.ok card ∧
      card.balance = 100 + rC6.bonus.getD 0 ∧
      card.total = 100 + rC6.bonus.getD 0 ∧
      card.balance = card.total ∧
      card.history = [{ delta := 100 + rC6.bonus.getD 0, note := "Zakup karty", date := "t" }] ∧
      (rC6.bonus = none → card.balance = 100) :=
  prepaid_purchase_init emptyDB rC6 "i" "123456" "t" 100 rfl (by norm_num)

/-- Claim C7: an adjustment whose delta would push the card's balance below
zero returns the validation error and leaves the state — in particular the
card's balance and history — exactly as it was. -/
theorem prepaid_adjust_reject (db : DB) (code : String) (d : Rat)
    (note : Option String) (now : String) (card : Card)
    (hd : d ≠ 0)
    (hfind : db.prepaid.find? (fun p => p.code == code) = some card)
    (hneg : card.balance + d < 0) :
    prepaidAdjust db code (some d) note now =
      (db, Except.error "Saldo nie może być ujemne") := by
  simp only [prepaidAdjust, Option.getD_some, if_neg hd, hfind]
  rw [if_pos hneg]

/-- Concrete card for the C7 witness: code `123456`, balance 60. -/
def cardC7 : Card :=
  { id := "p1", code := "123456", title := "Karta 100 zł", value := 100,
    bonus := 10, total := 110, balance := 60, userId := none,
    createdAt := "t0", history := [] }

/-- Concrete state for the C7 witness. -/
def dbC7 : DB := { emptyDB with prepaid := [cardC7] }

/-- Witness for C7: adjusting the balance-60 card by −1000 is rejected and
the state is untouched. -/
theorem prepaid_adjust_reject_witness :
    prepaidAdjust dbC7 "123456" (some (-1000)) none "t1" =
      (dbC7, Except.error "Saldo nie może być ujemne") :=
  prepaid_adjust_reject dbC7 "123456" (-1000) none "t1" cardC7
    (by norm_num) rfl (by norm_num [cardC7])

/-- Reward on file for exercising the reward-update handler. -/
def rwC8 : Reward :=
  { id := "r1", title := "Shake", cost := 5, desc := "", icon := "", createdAt := "t0" }

/-- Concrete state for C8: one reward of cost 5. -/
def dbC8 : DB := { emptyDB with rewards := [rwC8] }

/-- Counterexample to C8 as stated: updating the cost-5 reward with a numeric
cost of 0 does not set the cost to 0 — `parseInt(cost, 10) || reward.cost`
treats the falsy 0 like a failed parse and keeps the prior cost 5. -/
theorem rewards_put_zero_not_set :
    (rewardsPut dbC8 "r1"
      { title := none, cost := some (some 0), desc := none, icon := none }).2 =
        Except.ok rwC8 ∧ rwC8.cost = 5 ∧ (5:Int) ≠ 0 :=
  ⟨rfl, rfl, by decide⟩

/-- Claim C8 (amended): on reward update no validation prevents a negative
cost — a negative numeric cost is stored as given — while a cost of zero or a
non-numeric cost is ignored in favor of the prior value (both are falsy for
`parseInt(cost, 10) || reward.cost`), as is an absent cost field. -/
theorem rewards_put_cost (db : DB) (id : String) (rw : Reward) (r : RewardPutReq)
    (hfind : db.rewards.find? (fun x => x.id == id) = some rw) :
    ∃ rw', (rewardsPut db id r).2 = Except.ok rw' ∧
      rw'.cost = (match r.cost with
        | none => rw.cost
        | some none => rw.cost
        | some (some c) => if c = 0 then rw.cost else c) := by
  simp only [rewardsPut, hfind]
  refine ⟨_, rfl, ?_⟩
  obtain ⟨t, c, de, ic⟩ := r
  cases t <;> cases de <;> cases ic <;>
    rcases c with _ | _ | c <;>
      simp [applyRewardPut, putCost]

/-- Witness for C8: updating the cost-5 reward with cost −7 stores −7. -/
theorem rewards_put_cost_witness :
    ∃ rw', (rewardsPut dbC8 "r1"
      { title := none, cost := some (some (-7)), desc := none, icon := none }).2 =
        Except.ok rw' ∧ rw'.cost = -7 := by
  obtain ⟨rw', h1, h2⟩ := rewards_put_cost dbC8 "r1" rwC8
    { title := none, cost := some (some (-7)), desc := none, icon := none } rfl
  exact ⟨rw', h1, by rw [h2]; decide⟩

/-- Claim C9: `ordersActive` counts the orders whose status does not
case-insensitively equal "wydane": a newly created order (status "Przyjęte")
raises the count by one, and updating that order's status to any casing of
"wydane" drops it from the count again. -/
theorem stats_orders_active (db : DB) (r : OrdersPostReq) (i n : String)
    (s now : String)
    (hitems : r.items ≠ [])
    (hs : s ≠ "") (hlow : jsToLower s = "wydane") :
    (statsOf (ordersPost db r i n).1).ordersActive = (statsOf db).ordersActive + 1 ∧
    (∃ o, (ordersPost db r i n).2 = Except.ok o ∧ o.status = "Przyjęte") ∧
    (statsOf (ordersPut (ordersPost db r i n).1 i (some s) now).1).ordersActive =
      (statsOf db).ordersActive := by
  have hguard : ¬ (r.items.isEmpty = true) := by
    simpa [List.isEmpty_iff] using hitems
  have hpost : ordersPost db r i n =
      ({ db with orders :=
          { id := i, items := r.items, total := r.total.getD 0,
            pickupTime := strOrNull r.pickupTime,
            pickupLocation := strOrNull r.pickupLocation,
            notes := strOr r.notes "", status := "Przyjęte",
            userId := strOrNull r.userId, createdAt := n,
            updatedAt := none } :: db.orders },
        Except.ok
          { id := i, items := r.items, total := r.total.getD 0,
            pickupTime := strOrNull r.pickupTime,
            pickupLocation := strOrNull r.pickupLocation,
            notes := strOr r.notes "", status := "Przyjęte",
            userId := strOrNull r.userId, createdAt := n,
            updatedAt := none }) := by
    simp only [ordersPost, if_neg hguard]
  have hq : ((jsToLower "Przyjęte" != "wydane") = true) := by decide
  have hq2 : ((jsToLower s != "wydane") = false) := by
    rw [hlow]
    decide
  refine ⟨?_, ?_, ?_⟩
  · rw [hpost]
    simp [statsOf, List.filter_cons, hq]
  · rw [hpost]
    exact ⟨_, rfl, rfl⟩
  · rw [hpost]
    have hfind :
        ({ id := i, items := r.items, total := r.total.getD 0,
            pickupTime := strOrNull r.pickupTime,
            pickupLocation := strOrNull r.pickupLocation,
            notes := strOr r.notes "", status := "Przyjęte",
            userId := strOrNull r.userId, createdAt := n,
            updatedAt := none } :: db.orders).find? (fun x => x.id == i) =
          some
          { id := i, items := r.items, total := r.total.getD 0,
            pickupTime := strOrNull r.pickupTime,
            pickupLocation := strOrNull r.pickupLocation,
            notes := strOr r.notes "", status := "Przyjęte",
            userId := strOrNull r.userId, createdAt := n,
            updatedAt := none } :=
      List.find?_cons_of_pos _ (by simp)
    have hb : ((s != "") = true) := by simpa using hs
    simp only [ordersPut, hfind]
    simp only [updateFirst, beq_self_eq_true, if_pos]
    simp [statsOf, applyOrderPut, hb, List.filter_cons, hq2]

/-- Concrete order-creation request for the C9 witness. -/
def rC9 : OrdersPostReq :=
  { items := [{ title := "Shake", qty := 1, price := 10 }], total := some 10,
    pickupTime := none, pickupLocation := none, notes := none, userId := none }

/-- Witness for C9: creating an order raises `ordersActive` from 0 to 1 and
updating its status to "WYDANE" drops it back to 0. -/
theorem stats_orders_active_witness :
    (statsOf (ordersPost emptyDB rC9 "o1" "t0").1).ordersActive =
      (statsOf emptyDB).ordersActive + 1 ∧
    (∃ o, (ordersPost emptyDB rC9 "o1" "t0").2 = Except.ok o ∧ o.status = "Przyjęte") ∧
    (statsOf (ordersPut (ordersPost emptyDB rC9 "o1" "t0").1 "o1"
        (some "WYDANE") "t1").1).ordersActive = (statsOf emptyDB).ordersActive :=
  stats_orders_active emptyDB rC9 "o1" "t0" "WYDANE" "t1"
    (by simp [rC9]) (by decide) (by decide)
